import Mathlib

/-!
Verification of the connection-interaction engine of a node-graph editor
(`nodeeditor/node_connection_interaction.py`).

The engine's own methods (`can_connect`, `try_connect`, `disconnect`,
`node_port_is_empty`, `connection_required_port`) are embedded directly from
the source.  The external collaborators that the source only calls —
`PortType` / `opposite_port` / `INVALID` from the port module, the
connection object (`get_node`, `get_port_index`, `data_type`,
`set_node_to_port`, `clear_node`, `set_type_converter`,
`propagate_empty_data`), the node state (`get_entries`, `set_connection`,
`erase_connection`), the scene registry (`get_type_converter`) and the
geometry/hit-test surface — are modelled from the spec's collaborator
contracts; each such definition says so in its doc comment.

Python exceptions are embedded as `Except`; external side-effecting calls
(logging, geometry recomputation, mouse grabbing, data propagation) are
recorded in an event trace.
-/

/-- A node data type: an identifier (id, name) used for equality comparison
and converter lookup. -/
structure NodeDataType where
  id : String
  name : String
deriving DecidableEq, Repr

/-- Modelled from the spec: port direction values.  The spec's step 1 of
`can_connect` contemplates "any other value outside {input, output}" reaching
the check (Python attributes are untyped, so a broken caller may store an
arbitrary object in `required_port`); the constructor `other` stands for such
an out-of-enum value. -/
inductive PortType where
  | none
  | input
  | output
  | other (tag : String)
deriving DecidableEq, Repr

/-- Modelled from the spec: per-port rule governing whether an output port may
serve multiple simultaneous connections. -/
inductive ConnectionPolicy where
  | one
  | many
deriving DecidableEq, Repr

/-- A type-converter value.  `defaultConverter` is the identity/default
converter used when types match exactly; `converter` is a registered
transformation.  Modelled from the spec: the identity/default converter is
skipped (falsy) when `try_connect` decides whether to attach. -/
inductive TypeConverterVal where
  | defaultConverter
  | converter (cname : String)
deriving DecidableEq, Repr

/-- `DefaultTypeConverter` from the type-converter module: the
identity/default converter. -/
def DefaultTypeConverter : TypeConverterVal := TypeConverterVal.defaultConverter

/-- Python truthiness of the converter variable in `try_connect`
(`if converter:`): the registry's none-found result (`None`) is falsy, and —
modelled from the spec ("skip if identity") — so is the default converter;
registered converters are truthy. -/
def converter_truthy : Option TypeConverterVal → Bool
  | Option.none => false
  | some TypeConverterVal.defaultConverter => false
  | some (TypeConverterVal.converter _) => true

/-- The catchable connection-failure category (`NodeConnectionFailure`
subclasses imported by the source). -/
inductive NodeConnectionFailure where
  | requires_port (msg : String)
  | self_connection (msg : String)
  | connection_point (msg : String)
  | port_not_empty (msg : String)
deriving DecidableEq, Repr

/-- A Python exception as observed by the engine: either a catchable
connection failure, or an exception outside that category (`ValueError` from
the step-1 contract check, `IndexError` from an unguarded list lookup). -/
inductive PyError where
  | connection_failure (f : NodeConnectionFailure)
  | value_error (msg : String)
  | index_error (msg : String)
deriving DecidableEq, Repr

/-- Externally observable side effects made by the engine (logging and calls
into external collaborators). -/
inductive Event where
  | log_debug (f : NodeConnectionFailure)
  | log_info (f : NodeConnectionFailure)
  | move_connections
  | on_data_updated (node : Nat) (port_index : Int)
  | propagate_empty_data
  | grab_mouse
  | query_out_policy (port_index : Int)
deriving DecidableEq, Repr

/-- A scene position; its arithmetic is external geometry, so it is an opaque
pair of coordinates here. -/
def ScenePoint : Type := Int × Int

instance : DecidableEq ScenePoint := by
  unfold ScenePoint
  infer_instance

instance : Repr ScenePoint := by
  unfold ScenePoint
  infer_instance

/-- `INVALID` from the port module: the sentinel hit-test result meaning
"no port at this point".  Modelled from the spec's "index or a sentinel
'none' value". -/
def INVALID : Int := -1

/-- `opposite_port` from the port module.  Modelled from the spec: leaf
utility for opposite-direction lookup; directions other than input/output
have no opposite. -/
def opposite_port : PortType → PortType
  | PortType.input => PortType.output
  | PortType.output => PortType.input
  | _ => PortType.none

/-- Python list indexing `xs[i]`: non-negative indices address from the
front, negative indices from the back; anything else raises `IndexError`
(`Option.none` here). -/
def pyListGet (xs : List α) (i : Int) : Option α :=
  let j : Int := if i < 0 then (xs.length : Int) + i else i
  if 0 ≤ j then xs[j.toNat]? else Option.none

/-- Update of a list at a (natural) position, leaving the list unchanged
out of range. -/
def listModify (f : α → α) : List α → Nat → List α
  | [], _ => []
  | x :: xs, 0 => f x :: xs
  | x :: xs, n + 1 => x :: listModify f xs n

/-- In-place update of the element a Python index addresses; indices that
do not address an element leave the list unchanged (the spec does not define
out-of-range mutation, and the engine only reaches in-range indices). -/
def pyListModify (xs : List α) (i : Int) (f : α → α) : List α :=
  let j : Int := if i < 0 then (xs.length : Int) + i else i
  if 0 ≤ j then listModify f xs j.toNat else xs

/-- Modelled from the spec: the scene's type-converter registry, a finite
table keyed by (source type, target type). -/
structure Registry where
  type_converters : List ((NodeDataType × NodeDataType) × TypeConverterVal)
deriving DecidableEq, Repr

/-- `DataModelRegistry.get_type_converter(d1, d2)`.  Modelled from the
spec's collaborator contract: `get_type_converter(fromType, toType) →
TypeConverter | none-found`; the none-found result is `Option.none`. -/
def Registry.get_type_converter (r : Registry) (d1 d2 : NodeDataType) :
    Option TypeConverterVal :=
  (r.type_converters.find? (fun e => e.fst = (d1, d2))).map Prod.snd

/-- Modelled from the spec: a connection's two logical ends, each either
bound to (node, port index) or unbound; which end still "requires" a port;
the optional attached type converter; the data type known at each end; and
the geometric endpoint positions used for hit-testing (`conn_id` identifies
the connection inside node port states). -/
structure Connection where
  conn_id : Nat
  required_port : PortType
  in_node : Option Nat
  out_node : Option Nat
  in_port_index : Int
  out_port_index : Int
  type_converter : Option TypeConverterVal
  in_data_type : NodeDataType
  out_data_type : NodeDataType
  in_end_point : ScenePoint
  out_end_point : ScenePoint
deriving DecidableEq, Repr

/-- `Connection.get_node(port_type)`.  Modelled from the spec: the node bound
at that end, or none. -/
def Connection.get_node (c : Connection) : PortType → Option Nat
  | PortType.input => c.in_node
  | PortType.output => c.out_node
  | _ => Option.none

/-- `Connection.get_port_index(port_type)`.  Modelled from the spec: the
port index recorded at that end. -/
def Connection.get_port_index (c : Connection) : PortType → Int
  | PortType.input => c.in_port_index
  | PortType.output => c.out_port_index
  | _ => INVALID

/-- `Connection.data_type(port_type)`.  Modelled from the spec: the
connection's known data type at that end. -/
def Connection.data_type (c : Connection) : PortType → NodeDataType
  | PortType.output => c.out_data_type
  | _ => c.in_data_type

/-- `Connection.set_node_to_port(node, port_type, port_index)`.  Modelled
from the spec: bind the node and index at that end; per the source's comment
"The port is not longer required after self function", the end stops being
required. -/
def Connection.set_node_to_port (c : Connection) (node : Nat)
    (port_type : PortType) (port_index : Int) : Connection :=
  match port_type with
  | PortType.input =>
      { c with in_node := some node, in_port_index := port_index,
               required_port := PortType.none }
  | PortType.output =>
      { c with out_node := some node, out_port_index := port_index,
               required_port := PortType.none }
  | _ => c

/-- `Connection.clear_node(port_type)`.  Modelled from the spec: clear the
connection's binding at that end (back to unbound). -/
def Connection.clear_node (c : Connection) : PortType → Connection
  | PortType.input => { c with in_node := Option.none, in_port_index := INVALID }
  | PortType.output => { c with out_node := Option.none, out_port_index := INVALID }
  | _ => c

/-- `Connection.set_type_converter(converter)`.  Modelled from the spec:
store the converter on the connection. -/
def Connection.set_type_converter (c : Connection)
    (conv : Option TypeConverterVal) : Connection :=
  { c with type_converter := conv }

/-- `ConnectionGeometry.get_end_point(port_type)` composed with the mapping
to scene coordinates.  Modelled from the spec: the endpoint position of that
end in the shared coordinate space (the coordinate mapping itself is external
geometry, so the stored point already lives in scene space). -/
def Connection.end_scene_point (c : Connection) : PortType → ScenePoint
  | PortType.output => c.out_end_point
  | _ => c.in_end_point

/-- Modelled from the spec: a node's Port State — per direction, one entry
per port, each entry the collection of connections occupying that port
(`erase_connection` receives the connection to remove, so an entry is a
collection, and "many"-policy output ports may hold several). -/
structure NodeState where
  in_entries : List (List Nat)
  out_entries : List (List Nat)
deriving DecidableEq, Repr

/-- `NodeState.get_entries(port_type)`.  Modelled from the spec: the entry
table for that direction (directions without a table yield the empty
table). -/
def NodeState.get_entries (s : NodeState) : PortType → List (List Nat)
  | PortType.input => s.in_entries
  | PortType.output => s.out_entries
  | _ => []

/-- `NodeState.set_connection(port_type, port_index, connection)`.  Modelled
from the spec: record the connection in the entry at that slot. -/
def NodeState.set_connection (s : NodeState) (port_type : PortType)
    (port_index : Int) (conn : Nat) : NodeState :=
  match port_type with
  | PortType.input =>
      { s with in_entries := pyListModify s.in_entries port_index (· ++ [conn]) }
  | PortType.output =>
      { s with out_entries := pyListModify s.out_entries port_index (· ++ [conn]) }
  | _ => s

/-- `NodeState.erase_connection(port_type, port_index, connection)`.
Modelled from the spec: remove that connection from the entry at that
slot. -/
def NodeState.erase_connection (s : NodeState) (port_type : PortType)
    (port_index : Int) (conn : Nat) : NodeState :=
  match port_type with
  | PortType.input =>
      { s with in_entries := pyListModify s.in_entries port_index (List.erase · conn) }
  | PortType.output =>
      { s with out_entries := pyListModify s.out_entries port_index (List.erase · conn) }
  | _ => s

/-- The candidate node as the engine sees it: an identity, its Port State,
and its data model (per-port data types and output connection policies —
modelled from the spec's node data-model contract). -/
structure Node where
  node_id : Nat
  state : NodeState
  data_types : PortType → Int → NodeDataType
  out_policy : Int → ConnectionPolicy

/-- The `NodeConnectionInteraction` object: the candidate node, the
connection, the scene's registry, and the hit-test collaborator
(`NodeGeometry.check_hit_scene_point` through the node's scene transform —
external geometry, modelled as an arbitrary function returning a port index
or `INVALID`). -/
structure InteractionCtx where
  node : Node
  connection : Connection
  registry : Registry
  hit_test : PortType → ScenePoint → Int

/-- `NodeConnectionInteraction.connection_required_port` (property). -/
def InteractionCtx.connection_required_port (ctx : InteractionCtx) : PortType :=
  ctx.connection.required_port

/-- `NodeConnectionInteraction.connection_end_scene_position(port_type)`. -/
def InteractionCtx.connection_end_scene_position (ctx : InteractionCtx)
    (port_type : PortType) : ScenePoint :=
  ctx.connection.end_scene_point port_type

/-- `NodeConnectionInteraction.node_port_index_under_scene_point(port_type,
scene_point)`: thin adapter over the node geometry hit test. -/
def InteractionCtx.node_port_index_under_scene_point (ctx : InteractionCtx)
    (port_type : PortType) (scene_point : ScenePoint) : Int :=
  ctx.hit_test port_type scene_point

/-- `NodeConnectionInteraction.node_port_is_empty(port_type, port_index)`:
true when the stored entry at that slot is empty; otherwise the node data
model's `port_out_connection_policy(port_index)` is consulted (recorded as a
`query_out_policy` event) and the result is true only for an output port
whose policy is `many`.  The unguarded `entries[port_index]` lookup raises
`IndexError` for indices that address no element. -/
def InteractionCtx.node_port_is_empty (ctx : InteractionCtx)
    (port_type : PortType) (port_index : Int) :
    Except PyError (Bool × List Event) :=
  let entries := ctx.node.state.get_entries port_type
  match pyListGet entries port_index with
  | Option.none => Except.error (PyError.index_error "list index out of range")
  | some entry =>
      if entry.isEmpty then
        Except.ok (true, [])
      else
        let out_policy := ctx.node.out_policy port_index
        Except.ok
          ((decide (port_type = PortType.output) &&
            decide (out_policy = ConnectionPolicy.many)),
           [Event.query_out_policy port_index])

/-- `NodeConnectionInteraction.can_connect()`: the validation chain, embedded
check for check from the source. -/
def InteractionCtx.can_connect (ctx : InteractionCtx) :
    Except PyError (Int × Option TypeConverterVal) :=
  -- 1) Connection requires a port
  let required_port := ctx.connection_required_port
  if required_port = PortType.none then
    Except.error (PyError.connection_failure
      (NodeConnectionFailure.requires_port "Connection requires a port"))
  else if ¬(required_port = PortType.input ∨ required_port = PortType.output) then
    Except.error (PyError.value_error "Invalid port specified")
  else
    -- 1.5) Forbid connecting the node to itself
    let node := ctx.connection.get_node (opposite_port required_port)
    if node = some ctx.node.node_id then
      Except.error (PyError.connection_failure
        (NodeConnectionFailure.self_connection "Cannot connect node to itself"))
    else
      -- 2) connection point is on top of the node port
      let connection_point := ctx.connection_end_scene_position required_port
      let port_index :=
        ctx.node_port_index_under_scene_point required_port connection_point
      if port_index = INVALID then
        Except.error (PyError.connection_failure
          (NodeConnectionFailure.connection_point
            "Connection point is not on node"))
      else
        -- 3) Node port is vacant
        match ctx.node_port_is_empty required_port port_index with
        | Except.error e => Except.error e
        | Except.ok (is_empty, _events) =>
          if !is_empty then
            Except.error (PyError.connection_failure
              (NodeConnectionFailure.port_not_empty "Port not empty"))
          else
            -- 4) Connection type equals node port type, or there is a
            -- registered type conversion that can translate between the two
            let connection_data_type :=
              ctx.connection.data_type (opposite_port required_port)
            let candidate_node_data_type :=
              ctx.node.data_types required_port port_index
            if connection_data_type.id = candidate_node_data_type.id then
              Except.ok (port_index, some DefaultTypeConverter)
            else
              let converter :=
                if required_port = PortType.input then
                  ctx.registry.get_type_converter connection_data_type
                    candidate_node_data_type
                else
                  ctx.registry.get_type_converter candidate_node_data_type
                    connection_data_type
              Except.ok (port_index, converter)

/-- `NodeConnectionInteraction.try_connect()`: absorbs connection failures
from `can_connect` (logging and returning false) and propagates any other
exception; on success performs the commit sequence and returns true.  The
result carries the Python return value, the updated connection, the updated
node Port State and the event trace. -/
def InteractionCtx.try_connect (ctx : InteractionCtx) :
    Except PyError (Bool × Connection × NodeState × List Event) :=
  -- 1) Check conditions from can_connect
  match ctx.can_connect with
  | Except.error (PyError.connection_failure ex) =>
      Except.ok (false, ctx.connection, ctx.node.state,
        [Event.log_debug ex, Event.log_info ex])
  | Except.error e => Except.error e
  | Except.ok (port_index, converter) =>
      -- 1.5) If a type conversion is needed, assign a convertor to connection
      let conn1 :=
        if converter_truthy converter then
          ctx.connection.set_type_converter converter
        else ctx.connection
      -- 2) Assign node to required port in Connection
      let required_port := ctx.connection_required_port
      let node_state1 :=
        ctx.node.state.set_connection required_port port_index
          ctx.connection.conn_id
      -- 3) Assign Connection to empty port in NodeState
      let conn2 := conn1.set_node_to_port ctx.node.node_id required_port
        port_index
      -- 4) Adjust Connection geometry
      let events1 := [Event.move_connections]
      -- 5) Poke model to initiate data transfer
      let out_node := conn2.get_node PortType.output
      let events2 :=
        match out_node with
        | some n =>
            events1 ++ [Event.on_data_updated n
              (conn2.get_port_index PortType.output)]
        | Option.none => events1
      Except.ok (true, conn2, node_state1, events2)

/-- `NodeConnectionInteraction.disconnect(port_to_disconnect)`: the teardown
sequence.  The source has no return statement, so the Python return value is
`None` (`Option.none` here) despite the declared `bool`. -/
def InteractionCtx.disconnect (ctx : InteractionCtx)
    (port_to_disconnect : PortType) :
    Option Bool × Connection × NodeState × List Event :=
  let port_index := ctx.connection.get_port_index port_to_disconnect
  -- clear pointer to Connection in the NodeState
  let state1 := ctx.node.state.erase_connection port_to_disconnect port_index
    ctx.connection.conn_id
  -- Propagate invalid data to IN node
  let events1 := [Event.propagate_empty_data]
  -- clear Connection side
  let conn1 := ctx.connection.clear_node port_to_disconnect
  let conn2 := { conn1 with required_port := port_to_disconnect }
  let events2 := events1 ++ [Event.grab_mouse]
  (Option.none, conn2, state1, events2)

/-! ### Concrete fixtures used by witnesses and counterexamples -/

/-- A sample data type. -/
def dtA : NodeDataType := { id := "A", name := "TypeA" }

/-- A second, distinct sample data type. -/
def dtB : NodeDataType := { id := "B", name := "TypeB" }

/-- A sample candidate node: id 1, three empty input ports and three empty
output ports, every port of type `dtA`, every output policy `one`. -/
def nodeA : Node :=
  { node_id := 1
    state := { in_entries := [[], [], []], out_entries := [[], [], []] }
    data_types := fun _ _ => dtA
    out_policy := fun _ => ConnectionPolicy.one }

/-- A sample connection dangling at its input end; its output end is bound to
node 2, port 0, with data type `dtA`. -/
def connA : Connection :=
  { conn_id := 7
    required_port := PortType.input
    in_node := Option.none
    out_node := some 2
    in_port_index := INVALID
    out_port_index := 0
    type_converter := Option.none
    in_data_type := dtA
    out_data_type := dtA
    in_end_point := (0, 0)
    out_end_point := (0, 0) }

/-- A sample interaction context in which every check of `can_connect`
passes with matching data types. -/
def ctxA : InteractionCtx :=
  { node := nodeA
    connection := connA
    registry := { type_converters := [] }
    hit_test := fun _ _ => 0 }

/-- The connection of `connA` after a successful commit at its input end:
bound to node 1, port 0. -/
def connBound : Connection :=
  { connA with
    in_node := some 1
    in_port_index := 0
    required_port := PortType.none }

/-- Node 1's Port State after `connA` (id 7) was recorded at input port 0. -/
def nodeStateBound : NodeState :=
  { in_entries := [[7], [], []], out_entries := [[], [], []] }

/-- An interaction context in which node 1 and the connection are already
connected at the input end. -/
def ctxBound : InteractionCtx :=
  { ctxA with
    connection := connBound
    node := { nodeA with state := nodeStateBound } }

/-! ### Claim theorems -/

/-- Claim C6: when the connection's required port is the `none` value, step 1
of `can_connect` raises `RequiresPortFailure`, which is in the catchable
connection-failure category; for a required-port value outside
{input, output}, `can_connect` raises a `ValueError` (a programmer-error
condition outside the connection-failure category), and `try_connect`
propagates it instead of absorbing it into a `false` return. -/
theorem can_connect_required_port_errors (ctx : InteractionCtx) :
    (ctx.connection.required_port = PortType.none →
      ctx.can_connect = Except.error (PyError.connection_failure
        (NodeConnectionFailure.requires_port "Connection requires a port"))) ∧
    (∀ tag, ctx.connection.required_port = PortType.other tag →
      ctx.can_connect =
        Except.error (PyError.value_error "Invalid port specified") ∧
      ctx.try_connect =
        Except.error (PyError.value_error "Invalid port specified")) := by
  constructor
  · intro h
    simp [InteractionCtx.can_connect, InteractionCtx.connection_required_port, h]
  · intro tag h
    have hcc : ctx.can_connect =
        Except.error (PyError.value_error "Invalid port specified") := by
      simp [InteractionCtx.can_connect, InteractionCtx.connection_required_port, h]
    refine ⟨hcc, ?_⟩
    simp [InteractionCtx.try_connect, hcc]

/-- Claim C6 witness: a concrete dangling connection with no required end
raises `RequiresPortFailure`, and a concrete out-of-enum direction makes both
`can_connect` and `try_connect` propagate a `ValueError`. -/
theorem can_connect_required_port_errors_witness :
    ({ ctxA with connection := { connA with required_port := PortType.none }
       : InteractionCtx }.can_connect =
      Except.error (PyError.connection_failure
        (NodeConnectionFailure.requires_port "Connection requires a port"))) ∧
    ({ ctxA with connection := { connA with required_port := PortType.other "junk" }
       : InteractionCtx }.try_connect =
      Except.error (PyError.value_error "Invalid port specified")) :=
  ⟨(can_connect_required_port_errors
      { ctxA with connection := { connA with required_port := PortType.none } }).1
      rfl,
   ((can_connect_required_port_errors
      { ctxA with connection := { connA with required_port := PortType.other "junk" } }).2
      "junk" rfl).2⟩

/-- Claim C3: `can_connect` performs its checks in strict order,
short-circuiting on the first failure: given that step 1 passes
(`required_port` is input or output), a self-connection fails with
`SelfConnectionFailure` regardless of hit-test or occupancy; otherwise a
failed hit test (the `INVALID` sentinel) fails with `ConnectionPointFailure`
regardless of occupancy or types; otherwise an occupied port fails with
`PortNotEmptyFailure`; otherwise the result is the step-5 type/converter
resolution.  In particular, dragging a connection end from node A back onto
node A raises `SelfConnectionFailure` regardless of port availability. -/
theorem can_connect_strict_order (ctx : InteractionCtx) (rp : PortType)
    (hrp : ctx.connection.required_port = rp)
    (hio : rp = PortType.input ∨ rp = PortType.output) :
    (ctx.connection.get_node (opposite_port rp) = some ctx.node.node_id →
      ctx.can_connect = Except.error (PyError.connection_failure
        (NodeConnectionFailure.self_connection "Cannot connect node to itself"))) ∧
    (∀ i, ctx.connection.get_node (opposite_port rp) ≠ some ctx.node.node_id →
      ctx.node_port_index_under_scene_point rp
        (ctx.connection_end_scene_position rp) = i →
      (i = INVALID →
        ctx.can_connect = Except.error (PyError.connection_failure
          (NodeConnectionFailure.connection_point
            "Connection point is not on node"))) ∧
      (∀ ev, i ≠ INVALID →
        ctx.node_port_is_empty rp i = Except.ok (false, ev) →
        ctx.can_connect = Except.error (PyError.connection_failure
          (NodeConnectionFailure.port_not_empty "Port not empty"))) ∧
      (∀ ev, i ≠ INVALID →
        ctx.node_port_is_empty rp i = Except.ok (true, ev) →
        ctx.can_connect =
          (if (ctx.connection.data_type (opposite_port rp)).id =
              (ctx.node.data_types rp i).id then
            Except.ok (i, some DefaultTypeConverter)
          else
            Except.ok (i,
              if rp = PortType.input then
                ctx.registry.get_type_converter
                  (ctx.connection.data_type (opposite_port rp))
                  (ctx.node.data_types rp i)
              else
                ctx.registry.get_type_converter (ctx.node.data_types rp i)
                  (ctx.connection.data_type (opposite_port rp)))))) := by
  rcases hio with h | h <;> subst h <;>
    refine ⟨fun hself => ?_, fun i hself hhit => ⟨fun hinv => ?_,
      fun ev hinv hocc => ?_, fun ev hinv hemp => ?_⟩⟩ <;>
    simp_all [InteractionCtx.can_connect, InteractionCtx.connection_required_port,
      opposite_port]

/-- Claim C3 witness: a concrete connection dragged from node 1 back onto
node 1 itself (its bound output end is node 1, the candidate node) raises
`SelfConnectionFailure`, even though port 0 is vacant and the hit test
succeeds. -/
theorem can_connect_strict_order_witness :
    ({ ctxA with connection := { connA with out_node := some 1 } }
      : InteractionCtx).can_connect =
      Except.error (PyError.connection_failure
        (NodeConnectionFailure.self_connection "Cannot connect node to itself")) :=
  (can_connect_strict_order
    { ctxA with connection := { connA with out_node := some 1 } }
    PortType.input rfl (Or.inl rfl)).1 rfl

/-- Helper: the value of `node_port_is_empty` on a slot whose lookup
succeeds. -/
theorem node_port_is_empty_eq (ctx : InteractionCtx) (pt : PortType) (i : Int)
    (entry : List Nat)
    (hget : pyListGet (ctx.node.state.get_entries pt) i = some entry) :
    ctx.node_port_is_empty pt i =
      (if entry.isEmpty then Except.ok (true, [])
       else Except.ok
        ((decide (pt = PortType.output) &&
          decide (ctx.node.out_policy i = ConnectionPolicy.many)),
         [Event.query_out_policy i])) := by
  simp [InteractionCtx.node_port_is_empty, hget]

/-- Helper: the value of `can_connect` once checks 1–3 have passed, as a
function of the occupancy answer and the step-5 type resolution. -/
theorem can_connect_past_checks (ctx : InteractionCtx) (rp : PortType)
    (hrp : ctx.connection.required_port = rp)
    (hio : rp = PortType.input ∨ rp = PortType.output)
    (hself : ctx.connection.get_node (opposite_port rp) ≠ some ctx.node.node_id)
    (i : Int)
    (hhit : ctx.node_port_index_under_scene_point rp
      (ctx.connection_end_scene_position rp) = i)
    (hinv : i ≠ INVALID) (b : Bool) (ev : List Event)
    (hemp : ctx.node_port_is_empty rp i = Except.ok (b, ev)) :
    ctx.can_connect =
      (if b = false then
        Except.error (PyError.connection_failure
          (NodeConnectionFailure.port_not_empty "Port not empty"))
      else if (ctx.connection.data_type (opposite_port rp)).id =
          (ctx.node.data_types rp i).id then
        Except.ok (i, some DefaultTypeConverter)
      else
        Except.ok (i,
          if rp = PortType.input then
            ctx.registry.get_type_converter
              (ctx.connection.data_type (opposite_port rp))
              (ctx.node.data_types rp i)
          else
            ctx.registry.get_type_converter (ctx.node.data_types rp i)
              (ctx.connection.data_type (opposite_port rp)))) := by
  rcases hio with h | h <;> subst h <;>
    simp_all [InteractionCtx.can_connect, InteractionCtx.connection_required_port,
      opposite_port]

/-- Claim C4: `node_port_is_empty(direction, index)` is a pure predicate
whose answer is true iff the stored entry at that slot is empty, or the
direction is output and the declared policy is `many`; consequently, once
checks 1–3 of `can_connect` have passed, an occupied slot whose
(direction, policy) is not (output, many) raises `PortNotEmptyFailure`,
while an occupied output slot with policy `many` never blocks: `can_connect`
proceeds to a successful type resolution. -/
theorem node_port_is_empty_occupancy (ctx : InteractionCtx) :
    (∀ pt i entry, pyListGet (ctx.node.state.get_entries pt) i = some entry →
      ∃ b ev, ctx.node_port_is_empty pt i = Except.ok (b, ev) ∧
        (b = true ↔ (entry = [] ∨ (pt = PortType.output ∧
          ctx.node.out_policy i = ConnectionPolicy.many)))) ∧
    (∀ rp i entry,
      ctx.connection.required_port = rp →
      (rp = PortType.input ∨ rp = PortType.output) →
      ctx.connection.get_node (opposite_port rp) ≠ some ctx.node.node_id →
      ctx.node_port_index_under_scene_point rp
        (ctx.connection_end_scene_position rp) = i →
      i ≠ INVALID →
      pyListGet (ctx.node.state.get_entries rp) i = some entry →
      (entry ≠ [] → ¬(rp = PortType.output ∧
          ctx.node.out_policy i = ConnectionPolicy.many) →
        ctx.can_connect = Except.error (PyError.connection_failure
          (NodeConnectionFailure.port_not_empty "Port not empty"))) ∧
      (rp = PortType.output → ctx.node.out_policy i = ConnectionPolicy.many →
        ∃ conv, ctx.can_connect = Except.ok (i, conv))) := by
  have part1 : ∀ pt i entry,
      pyListGet (ctx.node.state.get_entries pt) i = some entry →
      ∃ b ev, ctx.node_port_is_empty pt i = Except.ok (b, ev) ∧
        (b = true ↔ (entry = [] ∨ (pt = PortType.output ∧
          ctx.node.out_policy i = ConnectionPolicy.many))) := by
    intro pt i entry hget
    rw [node_port_is_empty_eq ctx pt i entry hget]
    by_cases he : entry.isEmpty
    · refine ⟨true, [], by simp [he], ?_⟩
      simp [List.isEmpty_iff.mp he]
    · refine ⟨(decide (pt = PortType.output) &&
          decide (ctx.node.out_policy i = ConnectionPolicy.many)),
        [Event.query_out_policy i], by simp [he], ?_⟩
      simp [List.isEmpty_iff] at he
      simp [he]
  refine ⟨part1, ?_⟩
  intro rp i entry hrp hio hself hhit hinv hget
  obtain ⟨b, ev, hemp, hb⟩ := part1 rp i entry hget
  have hcc := can_connect_past_checks ctx rp hrp hio hself i hhit hinv b ev hemp
  constructor
  · intro hne hpol
    have hbf : b = false := by
      cases b
      · rfl
      · exact absurd (hb.mp rfl) (fun hcase => hcase.elim hne hpol)
    rw [hcc, hbf]
    simp
  · intro hout hmany
    have hbt : b = true := hb.mpr (Or.inr ⟨hout, hmany⟩)
    rw [hcc, hbt]
    by_cases hid : (ctx.connection.data_type (opposite_port rp)).id =
        (ctx.node.data_types rp i).id
    · exact ⟨some DefaultTypeConverter, by simp [hid]⟩
    · exact ⟨(if rp = PortType.input then
          ctx.registry.get_type_converter
            (ctx.connection.data_type (opposite_port rp))
            (ctx.node.data_types rp i)
        else
          ctx.registry.get_type_converter (ctx.node.data_types rp i)
            (ctx.connection.data_type (opposite_port rp))),
        by simp [hid]⟩

/-- Claim C4 witness: on a concrete node whose input port 0 is already
occupied (policy `one`), `can_connect` raises `PortNotEmptyFailure`; and the
occupancy predicate itself answers false there. -/
theorem node_port_is_empty_occupancy_witness :
    ({ ctxA with node := { nodeA with
        state := { in_entries := [[9], [], []], out_entries := [[], [], []] } } }
      : InteractionCtx).can_connect =
      Except.error (PyError.connection_failure
        (NodeConnectionFailure.port_not_empty "Port not empty")) :=
  (((node_port_is_empty_occupancy
      { ctxA with node := { nodeA with
          state := { in_entries := [[9], [], []], out_entries := [[], [], []] } } }).2
    PortType.input 0 [9] rfl (Or.inl rfl) (by decide) rfl (by decide) rfl).1
    (by decide) (by decide))

/-- Claim C1 (amended): once the required-port, self-connection, hit-test and
occupancy checks pass with resolved index `i`: equal type identifiers yield
`(i, identity/default converter)`; differing identifiers yield `(i, r)` where
`r` is the registry query oriented by `required_port` (input:
converter(connection type → port type); output: converter(port type →
connection type)); and when no converter is registered the registry's
none-found result is returned as `(i, none)` — `can_connect` does not fail in
that case. -/
theorem can_connect_type_resolution (ctx : InteractionCtx) (rp : PortType)
    (hrp : ctx.connection.required_port = rp)
    (hio : rp = PortType.input ∨ rp = PortType.output)
    (hself : ctx.connection.get_node (opposite_port rp) ≠ some ctx.node.node_id)
    (i : Int)
    (hhit : ctx.node_port_index_under_scene_point rp
      (ctx.connection_end_scene_position rp) = i)
    (hinv : i ≠ INVALID) (ev : List Event)
    (hemp : ctx.node_port_is_empty rp i = Except.ok (true, ev)) :
    ((ctx.connection.data_type (opposite_port rp)).id =
        (ctx.node.data_types rp i).id →
      ctx.can_connect = Except.ok (i, some DefaultTypeConverter)) ∧
    ((ctx.connection.data_type (opposite_port rp)).id ≠
        (ctx.node.data_types rp i).id →
      (rp = PortType.input →
        ctx.can_connect = Except.ok (i,
          ctx.registry.get_type_converter
            (ctx.connection.data_type (opposite_port rp))
            (ctx.node.data_types rp i)) ∧
        (ctx.registry.get_type_converter
            (ctx.connection.data_type (opposite_port rp))
            (ctx.node.data_types rp i) = Option.none →
          ctx.can_connect = Except.ok (i, Option.none))) ∧
      (rp = PortType.output →
        ctx.can_connect = Except.ok (i,
          ctx.registry.get_type_converter (ctx.node.data_types rp i)
            (ctx.connection.data_type (opposite_port rp))) ∧
        (ctx.registry.get_type_converter (ctx.node.data_types rp i)
            (ctx.connection.data_type (opposite_port rp)) = Option.none →
          ctx.can_connect = Except.ok (i, Option.none)))) := by
  have hcc := can_connect_past_checks ctx rp hrp hio hself i hhit hinv true ev hemp
  refine ⟨fun hid => ?_, fun hid => ⟨fun hin => ⟨?_, fun hreg => ?_⟩,
    fun hout => ⟨?_, fun hreg => ?_⟩⟩⟩ <;>
    simp_all

/-- Claim C1 counterexample: a concrete pair that passes every check, with
differing type identifiers and an empty registry (so no converter is
registered from the connection type `dtA` to the port type `dtB`): the
claim says `can_connect` fails with a connection failure, but it returns
`(0, none)` successfully. -/
theorem can_connect_no_converter_counterexample :
    ({ ctxA with node := { nodeA with data_types := fun _ _ => dtB } }
        : InteractionCtx).registry.get_type_converter dtA dtB = Option.none ∧
    ({ ctxA with node := { nodeA with data_types := fun _ _ => dtB } }
        : InteractionCtx).can_connect = Except.ok (0, Option.none) := by
  constructor <;> rfl

/-- Claim C1 witness: on a concrete matching pair `can_connect` returns the
identity converter, and on a concrete mismatched pair with a registered
converter it returns that converter. -/
theorem can_connect_type_resolution_witness :
    (ctxA.can_connect = Except.ok (0, some DefaultTypeConverter)) ∧
    ({ ctxA with
        node := { nodeA with data_types := fun _ _ => dtB }
        registry := { type_converters :=
          [((dtA, dtB), TypeConverterVal.converter "a_to_b")] } }
        : InteractionCtx).can_connect =
      Except.ok (0, some (TypeConverterVal.converter "a_to_b")) := by
  constructor
  · exact (can_connect_type_resolution ctxA PortType.input rfl (Or.inl rfl)
      (by decide) 0 rfl (by decide) [] rfl).1 rfl
  · have h := (((can_connect_type_resolution
      { ctxA with
        node := { nodeA with data_types := fun _ _ => dtB }
        registry := { type_converters :=
          [((dtA, dtB), TypeConverterVal.converter "a_to_b")] } }
      PortType.input rfl (Or.inl rfl) (by decide) 0 rfl (by decide) [] rfl).2
      (by decide)).1 rfl).1
    rw [h]
    rfl

/-- Claim C10: `node_port_is_empty` returns a boolean only for indices the
entry table lookup can address; any other index makes the unguarded
`entries[port_index]` lookup raise `IndexError`.  For every occupied slot the
data model's `port_out_connection_policy` is queried even when the direction
is input, where — the theorem holds for every policy function — its value
cannot change the `false` result. -/
theorem node_port_is_empty_domain_and_policy_query (ctx : InteractionCtx) :
    (∀ pt i, pyListGet (ctx.node.state.get_entries pt) i = Option.none →
      ctx.node_port_is_empty pt i =
        Except.error (PyError.index_error "list index out of range")) ∧
    (∀ pt i entry, pyListGet (ctx.node.state.get_entries pt) i = some entry →
      ∃ b ev, ctx.node_port_is_empty pt i = Except.ok (b, ev)) ∧
    (∀ i entry,
      pyListGet (ctx.node.state.get_entries PortType.input) i = some entry →
      entry ≠ [] →
      ctx.node_port_is_empty PortType.input i =
        Except.ok (false, [Event.query_out_policy i])) := by
  refine ⟨fun pt i hnone => ?_, fun pt i entry hget => ?_,
    fun i entry hget hne => ?_⟩
  · simp [InteractionCtx.node_port_is_empty, hnone]
  · rw [node_port_is_empty_eq ctx pt i entry hget]
    by_cases he : entry.isEmpty <;> simp [he]
  · rw [node_port_is_empty_eq ctx PortType.input i entry hget]
    simp [hne]

/-- Claim C10 witness: on a concrete node with three input ports, index 5
raises `IndexError`, while an occupied input slot at index 0 answers `false`
and queries the output connection policy. -/
theorem node_port_is_empty_domain_witness :
    (ctxA.node_port_is_empty PortType.input 5 =
      Except.error (PyError.index_error "list index out of range")) ∧
    ({ ctxA with node := { nodeA with
        state := { in_entries := [[9], [], []], out_entries := [[], [], []] } } }
      : InteractionCtx).node_port_is_empty PortType.input 0 =
      Except.ok (false, [Event.query_out_policy 0]) :=
  ⟨(node_port_is_empty_domain_and_policy_query ctxA).1 PortType.input 5 rfl,
   (node_port_is_empty_domain_and_policy_query
      { ctxA with node := { nodeA with
          state := { in_entries := [[9], [], []],
                     out_entries := [[], [], []] } } }).2.2 0 [9] rfl
      (by decide)⟩

/-- Claim C2: whenever `can_connect` raises a connection failure,
`try_connect` absorbs it: it logs the failure and returns `false`, and the
returned Connection State and Node Port State are exactly the inputs —
no mutation occurs on the failure path (`can_connect` itself is a pure
function of the context). -/
theorem try_connect_absorbs_connection_failures (ctx : InteractionCtx)
    (f : NodeConnectionFailure)
    (h : ctx.can_connect = Except.error (PyError.connection_failure f)) :
    ctx.try_connect = Except.ok (false, ctx.connection, ctx.node.state,
      [Event.log_debug f, Event.log_info f]) := by
  simp [InteractionCtx.try_connect, h]

/-- Claim C2 witness: on a concrete context whose connection requires no
port, `try_connect` logs `RequiresPortFailure`, returns `false`, and leaves
the connection and the node state untouched. -/
theorem try_connect_absorbs_connection_failures_witness :
    ({ ctxA with connection := { connA with required_port := PortType.none } }
      : InteractionCtx).try_connect =
      Except.ok (false,
        { connA with required_port := PortType.none },
        nodeA.state,
        [Event.log_debug
          (NodeConnectionFailure.requires_port "Connection requires a port"),
         Event.log_info
          (NodeConnectionFailure.requires_port "Connection requires a port")]) :=
  try_connect_absorbs_connection_failures
    { ctxA with connection := { connA with required_port := PortType.none } }
    (NodeConnectionFailure.requires_port "Connection requires a port") rfl

/-- Claim C5: whenever `can_connect` succeeds with `(i, conv)`, `try_connect`
returns `true` and performs the whole commit: the resolved converter is
attached exactly when it is not the identity/default (nor absent), the
candidate node is bound into the connection at the required end with index
`i`, the connection is recorded in the node's Port State at that slot,
geometry recomputation is requested, and if the connection then has a bound
output end its node is notified through `on_data_updated` with the output
port index. -/
theorem try_connect_success_effects (ctx : InteractionCtx) (rp : PortType)
    (hrp : ctx.connection.required_port = rp)
    (hio : rp = PortType.input ∨ rp = PortType.output)
    (i : Int) (conv : Option TypeConverterVal)
    (hcc : ctx.can_connect = Except.ok (i, conv)) :
    (∃ r, ctx.try_connect = Except.ok r) ∧
    (∀ b conn2 ns2 ev, ctx.try_connect = Except.ok (b, conn2, ns2, ev) →
      b = true ∧
      conn2.type_converter = (if converter_truthy conv = true then conv
        else ctx.connection.type_converter) ∧
      conn2.get_node rp = some ctx.node.node_id ∧
      conn2.get_port_index rp = i ∧
      ns2 = ctx.node.state.set_connection rp i ctx.connection.conn_id ∧
      Event.move_connections ∈ ev ∧
      (∀ n, conn2.get_node PortType.output = some n →
        Event.on_data_updated n (conn2.get_port_index PortType.output) ∈ ev)) := by
  have htc : ctx.try_connect = Except.ok (true,
      (if converter_truthy conv then ctx.connection.set_type_converter conv
       else ctx.connection).set_node_to_port ctx.node.node_id rp i,
      ctx.node.state.set_connection rp i ctx.connection.conn_id,
      [Event.move_connections] ++
        (match ((if converter_truthy conv then
            ctx.connection.set_type_converter conv
          else ctx.connection).set_node_to_port ctx.node.node_id rp i).get_node
            PortType.output with
         | some n => [Event.on_data_updated n
            (((if converter_truthy conv then
                ctx.connection.set_type_converter conv
              else ctx.connection).set_node_to_port ctx.node.node_id
                rp i).get_port_index PortType.output)]
         | Option.none => [])) := by
    rw [InteractionCtx.try_connect, hcc]
    simp [InteractionCtx.connection_required_port, hrp]
    cases hout : ((if converter_truthy conv then
        ctx.connection.set_type_converter conv
      else ctx.connection).set_node_to_port ctx.node.node_id rp i).get_node
        PortType.output <;> simp [hout]
  refine ⟨⟨_, htc⟩, ?_⟩
  intro b conn2 ns2 ev hev
  rw [htc] at hev
  obtain ⟨hb, hconn, hns, hevv⟩ :
      true = b ∧
      (if converter_truthy conv then ctx.connection.set_type_converter conv
       else ctx.connection).set_node_to_port ctx.node.node_id rp i = conn2 ∧
      ctx.node.state.set_connection rp i ctx.connection.conn_id = ns2 ∧
      ([Event.move_connections] ++ _) = ev := by
    have := Except.ok.inj hev
    simpa using this
  subst hb hconn hns hevv
  refine ⟨rfl, ?_, ?_, ?_, rfl, by simp, ?_⟩
  · rcases hio with h | h <;> subst h <;>
      by_cases ht : converter_truthy conv <;>
      simp [Connection.set_node_to_port, Connection.set_type_converter, ht]
  · rcases hio with h | h <;> subst h <;>
      by_cases ht : converter_truthy conv <;>
      simp [Connection.set_node_to_port, Connection.get_node, ht]
  · rcases hio with h | h <;> subst h <;>
      by_cases ht : converter_truthy conv <;>
      simp [Connection.set_node_to_port, Connection.get_port_index, ht]
  · intro n hn
    rw [hn]
    simp

/-- Claim C5 witness: on the concrete context `ctxA` (all checks pass,
matching types), `try_connect` succeeds. -/
theorem try_connect_success_effects_witness :
    ∃ r, ctxA.try_connect = Except.ok r :=
  (try_connect_success_effects ctxA PortType.input rfl (Or.inl rfl) 0
    (some DefaultTypeConverter) rfl).1

/-- Claim C9: `try_connect` attaches a converter to the connection iff the
converter value returned by `can_connect` is truthy; for every falsy
converter value (the registry's none-found `None`, or the default converter)
`try_connect` still binds the node, records the Port State entry and returns
`true` without attaching anything — success does not guarantee that
mismatched types carry a converter. -/
theorem try_connect_attach_iff_truthy (ctx : InteractionCtx) (rp : PortType)
    (hrp : ctx.connection.required_port = rp)
    (hio : rp = PortType.input ∨ rp = PortType.output)
    (i : Int) (conv : Option TypeConverterVal)
    (hcc : ctx.can_connect = Except.ok (i, conv)) :
    (∃ r, ctx.try_connect = Except.ok r) ∧
    (∀ b conn2 ns2 ev, ctx.try_connect = Except.ok (b, conn2, ns2, ev) →
      b = true ∧
      (converter_truthy conv = true → conn2.type_converter = conv) ∧
      (converter_truthy conv = false →
        conn2.type_converter = ctx.connection.type_converter ∧
        conn2.get_node rp = some ctx.node.node_id ∧
        conn2.get_port_index rp = i ∧
        ns2 = ctx.node.state.set_connection rp i ctx.connection.conn_id)) := by
  have htc : ctx.try_connect = Except.ok (true,
      (if converter_truthy conv then ctx.connection.set_type_converter conv
       else ctx.connection).set_node_to_port ctx.node.node_id rp i,
      ctx.node.state.set_connection rp i ctx.connection.conn_id,
      [Event.move_connections] ++
        (match ((if converter_truthy conv then
            ctx.connection.set_type_converter conv
          else ctx.connection).set_node_to_port ctx.node.node_id rp i).get_node
            PortType.output with
         | some n => [Event.on_data_updated n
            (((if converter_truthy conv then
                ctx.connection.set_type_converter conv
              else ctx.connection).set_node_to_port ctx.node.node_id
                rp i).get_port_index PortType.output)]
         | Option.none => [])) := by
    rw [InteractionCtx.try_connect, hcc]
    simp [InteractionCtx.connection_required_port, hrp]
    cases hout : ((if converter_truthy conv then
        ctx.connection.set_type_converter conv
      else ctx.connection).set_node_to_port ctx.node.node_id rp i).get_node
        PortType.output <;> simp [hout]
  refine ⟨⟨_, htc⟩, ?_⟩
  intro b conn2 ns2 ev hev
  rw [htc] at hev
  obtain ⟨hb, hconn, hns, hevv⟩ :
      true = b ∧
      (if converter_truthy conv then ctx.connection.set_type_converter conv
       else ctx.connection).set_node_to_port ctx.node.node_id rp i = conn2 ∧
      ctx.node.state.set_connection rp i ctx.connection.conn_id = ns2 ∧
      ([Event.move_connections] ++ _) = ev := by
    have := Except.ok.inj hev
    simpa using this
  subst hb hconn hns hevv
  refine ⟨rfl, fun ht => ?_, fun ht => ⟨?_, ?_, ?_, rfl⟩⟩
  · rcases hio with h | h <;> subst h <;>
      simp [Connection.set_node_to_port, Connection.set_type_converter, ht]
  · rcases hio with h | h <;> subst h <;>
      simp [Connection.set_node_to_port, Connection.set_type_converter, ht]
  · rcases hio with h | h <;> subst h <;>
      simp [Connection.set_node_to_port, Connection.get_node, ht]
  · rcases hio with h | h <;> subst h <;>
      simp [Connection.set_node_to_port, Connection.get_port_index, ht]

/-- Claim C9 witness: concrete mismatched types with nothing registered —
`can_connect` hands `try_connect` the falsy none-found converter, yet
`try_connect` returns `true`, binds the node, records the Port State entry,
and attaches no converter. -/
theorem try_connect_attach_iff_truthy_witness :
    true = true ∧
    (converter_truthy Option.none = true →
      ({ connA with
          in_node := some 1
          in_port_index := 0
          required_port := PortType.none } : Connection).type_converter =
        Option.none) ∧
    (converter_truthy Option.none = false →
      ({ connA with
          in_node := some 1
          in_port_index := 0
          required_port := PortType.none } : Connection).type_converter =
        connA.type_converter ∧
      ({ connA with
          in_node := some 1
          in_port_index := 0
          required_port := PortType.none } : Connection).get_node
        PortType.input = some 1 ∧
      ({ connA with
          in_node := some 1
          in_port_index := 0
          required_port := PortType.none } : Connection).get_port_index
        PortType.input = 0 ∧
      ({ in_entries := [[7], [], []], out_entries := [[], [], []] }
        : NodeState) = nodeA.state.set_connection PortType.input 0 7) :=
  (try_connect_attach_iff_truthy
    { ctxA with node := { nodeA with data_types := fun _ _ => dtB } }
    PortType.input rfl (Or.inl rfl) 0 Option.none rfl).2 true
    { connA with
        in_node := some 1
        in_port_index := 0
        required_port := PortType.none }
    { in_entries := [[7], [], []], out_entries := [[], [], []] }
    [Event.move_connections, Event.on_data_updated 2 0] rfl

/-- Helper: `listModify` preserves length. -/
theorem listModify_length (f : α → α) (xs : List α) (n : Nat) :
    (listModify f xs n).length = xs.length := by
  induction xs generalizing n with
  | nil => rfl
  | cons x xs ih =>
    cases n with
    | zero => rfl
    | succ n => simpa [listModify] using ih n

/-- Helper: two `listModify` at the same position compose. -/
theorem listModify_listModify (f g : α → α) (xs : List α) (n : Nat) :
    listModify g (listModify f xs n) n = listModify (fun a => g (f a)) xs n := by
  induction xs generalizing n with
  | nil => rfl
  | cons x xs ih =>
    cases n with
    | zero => rfl
    | succ n => simpa [listModify] using ih n

/-- Helper: `listModify` with a function that fixes the touched element is
the identity. -/
theorem listModify_eq_self (f : α → α) (xs : List α) (n : Nat)
    (h : ∀ a, xs[n]? = some a → f a = a) : listModify f xs n = xs := by
  induction xs generalizing n with
  | nil => rfl
  | cons x xs ih =>
    cases n with
    | zero => simpa [listModify] using h x (by simp)
    | succ n =>
      simp only [listModify, List.cons.injEq, true_and]
      exact ih n (fun a ha => h a (by simpa using ha))

/-- Helper: two Python-index updates at the same index compose. -/
theorem pyListModify_pyListModify (xs : List α) (i : Int) (f g : α → α) :
    pyListModify (pyListModify xs i f) i g =
      pyListModify xs i (fun a => g (f a)) := by
  unfold pyListModify
  by_cases hj : 0 ≤ (if i < 0 then (xs.length : Int) + i else i)
  · simp [hj, listModify_length, listModify_listModify]
  · simp [hj, listModify_length]

/-- Helper: a Python-index update whose function fixes the addressed element
is the identity. -/
theorem pyListModify_eq_self (xs : List α) (i : Int) (f : α → α)
    (h : ∀ a, pyListGet xs i = some a → f a = a) :
    pyListModify xs i f = xs := by
  unfold pyListModify
  unfold pyListGet at h
  by_cases hj : 0 ≤ (if i < 0 then (xs.length : Int) + i else i)
  · simp only [hj, if_true] at h ⊢
    exact listModify_eq_self f xs _ h
  · simp [hj]

/-- Claim C7 (code evaluation): under the precondition that the connection is
bound at `port_to_disconnect` to the engine's node, `disconnect` performs all
the claimed effects together — erases the Port State entry at that direction
and the recorded index, propagates empty data, clears the connection's
binding at that end, marks the end as requiring `port_to_disconnect`, and
requests pointer tracking — and it has no failure path; but the Python
return value is `None` (the source has no return statement), not a bool as
the method's docstring and the claim state. -/
theorem disconnect_effects_and_return (ctx : InteractionCtx) (pt : PortType)
    (hio : pt = PortType.input ∨ pt = PortType.output)
    (hbound : ctx.connection.get_node pt = some ctx.node.node_id) :
    ∀ ret conn3 ns3 ev, ctx.disconnect pt = (ret, conn3, ns3, ev) →
      ret = Option.none ∧
      ns3 = ctx.node.state.erase_connection pt
        (ctx.connection.get_port_index pt) ctx.connection.conn_id ∧
      conn3.get_node pt = Option.none ∧
      conn3.required_port = pt ∧
      ev = [Event.propagate_empty_data, Event.grab_mouse] := by
  intro ret conn3 ns3 ev hev
  simp only [InteractionCtx.disconnect] at hev
  obtain ⟨h1, h2, h3, h4⟩ := by simpa using hev
  subst h1 h2 h3 h4
  refine ⟨rfl, rfl, ?_, ?_, rfl⟩ <;>
    rcases hio with h | h <;> subst h <;>
    simp [Connection.clear_node, Connection.get_node]

/-- Claim C7 witness: on the concrete connected context `ctxBound`,
`disconnect(input)` clears the Port State entry, unbinds the input end,
marks it required again — and returns `None`, not a bool. -/
theorem disconnect_effects_and_return_witness :
    (Option.none : Option Bool) = Option.none ∧
    ({ in_entries := [[], [], []], out_entries := [[], [], []] }
      : NodeState) = nodeStateBound.erase_connection PortType.input 0 7 ∧
    (Option.none : Option Nat) = Option.none ∧
    PortType.input = PortType.input ∧
    [Event.propagate_empty_data, Event.grab_mouse] =
      [Event.propagate_empty_data, Event.grab_mouse] :=
  disconnect_effects_and_return ctxBound PortType.input (Or.inl rfl) rfl
    Option.none
    { connBound with
        in_node := Option.none
        in_port_index := INVALID
        required_port := PortType.input }
    { in_entries := [[], [], []], out_entries := [[], [], []] }
    [Event.propagate_empty_data, Event.grab_mouse] rfl

/-- Helper: the full value of `try_connect` on a successful `can_connect`. -/
theorem try_connect_ok_eq (ctx : InteractionCtx) (rp : PortType)
    (hrp : ctx.connection.required_port = rp)
    (i : Int) (conv : Option TypeConverterVal)
    (hcc : ctx.can_connect = Except.ok (i, conv)) :
    ctx.try_connect = Except.ok (true,
      (if converter_truthy conv then ctx.connection.set_type_converter conv
       else ctx.connection).set_node_to_port ctx.node.node_id rp i,
      ctx.node.state.set_connection rp i ctx.connection.conn_id,
      [Event.move_connections] ++
        (match ((if converter_truthy conv then
            ctx.connection.set_type_converter conv
          else ctx.connection).set_node_to_port ctx.node.node_id rp i).get_node
            PortType.output with
         | some n => [Event.on_data_updated n
            (((if converter_truthy conv then
                ctx.connection.set_type_converter conv
              else ctx.connection).set_node_to_port ctx.node.node_id
                rp i).get_port_index PortType.output)]
         | Option.none => [])) := by
  rw [InteractionCtx.try_connect, hcc]
  simp [InteractionCtx.connection_required_port, hrp]
  cases hout : ((if converter_truthy conv then
      ctx.connection.set_type_converter conv
    else ctx.connection).set_node_to_port ctx.node.node_id rp i).get_node
      PortType.output <;> simp [hout]

/-- Helper: recording a connection at a slot and then erasing it restores
the Port State, provided it was not already in the entry. -/
theorem set_then_erase_eq (ns : NodeState) (pt : PortType)
    (hio : pt = PortType.input ∨ pt = PortType.output) (i : Int) (c : Nat)
    (entry : List Nat) (hget : pyListGet (ns.get_entries pt) i = some entry)
    (hnotin : c ∉ entry) :
    (ns.set_connection pt i c).erase_connection pt i c = ns := by
  have key : ∀ xs : List (List Nat), pyListGet xs i = some entry →
      pyListModify (pyListModify xs i (· ++ [c])) i (List.erase · c) = xs := by
    intro xs hx
    rw [pyListModify_pyListModify]
    apply pyListModify_eq_self
    intro a ha
    rw [hx] at ha
    obtain rfl : entry = a := Option.some.inj ha
    rw [List.erase_append_right _ hnotin, List.erase_cons_head, List.append_nil]
  rcases hio with h | h <;> subst h <;>
    simp only [NodeState.get_entries] at hget <;>
    simp only [NodeState.set_connection, NodeState.erase_connection] <;>
    rw [key _ hget]

/-- Claim C8: round trip.  Whenever `try_connect` commits a binding at the
required end, a subsequent `disconnect` on that same end (with the updated
connection and node state) marks the end as requiring that port again,
clears the binding, and — provided the connection was not already present in
the slot's entry — restores the node's Port State exactly. -/
theorem try_connect_disconnect_round_trip (ctx : InteractionCtx)
    (rp : PortType) (hrp : ctx.connection.required_port = rp)
    (hio : rp = PortType.input ∨ rp = PortType.output)
    (i : Int) (conv : Option TypeConverterVal)
    (hcc : ctx.can_connect = Except.ok (i, conv))
    (entry : List Nat)
    (hget : pyListGet (ctx.node.state.get_entries rp) i = some entry)
    (hnotin : ctx.connection.conn_id ∉ entry)
    (b : Bool) (conn2 : Connection) (ns2 : NodeState) (ev : List Event)
    (htc : ctx.try_connect = Except.ok (b, conn2, ns2, ev))
    (ret : Option Bool) (conn3 : Connection) (ns3 : NodeState)
    (ev2 : List Event)
    (hdc : ({ ctx with
        connection := conn2
        node := { ctx.node with state := ns2 } } : InteractionCtx).disconnect rp
      = (ret, conn3, ns3, ev2)) :
    conn3.required_port = rp ∧
    conn3.get_node rp = Option.none ∧
    ns3 = ctx.node.state := by
  rw [try_connect_ok_eq ctx rp hrp i conv hcc] at htc
  obtain ⟨hb, hconn, hns, hev⟩ :
      true = b ∧
      (if converter_truthy conv then ctx.connection.set_type_converter conv
       else ctx.connection).set_node_to_port ctx.node.node_id rp i = conn2 ∧
      ctx.node.state.set_connection rp i ctx.connection.conn_id = ns2 ∧
      ([Event.move_connections] ++ _) = ev := by
    have := Except.ok.inj htc
    simpa using this
  subst hb hconn hns hev
  simp only [InteractionCtx.disconnect] at hdc
  obtain ⟨h1, h2, h3, h4⟩ := by simpa using hdc
  subst h1 h2 h3 h4
  have hcid : ((if converter_truthy conv then
      ctx.connection.set_type_converter conv
    else ctx.connection).set_node_to_port ctx.node.node_id rp i).conn_id =
      ctx.connection.conn_id := by
    by_cases ht : converter_truthy conv <;> rcases hio with h | h <;> subst h <;>
      simp [Connection.set_node_to_port, Connection.set_type_converter, ht]
  have hidx : ((if converter_truthy conv then
      ctx.connection.set_type_converter conv
    else ctx.connection).set_node_to_port ctx.node.node_id rp i).get_port_index
      rp = i := by
    by_cases ht : converter_truthy conv <;> rcases hio with h | h <;> subst h <;>
      simp [Connection.set_node_to_port, Connection.get_port_index, ht]
  refine ⟨rfl, ?_, ?_⟩
  · rcases hio with h | h <;> subst h <;>
      by_cases ht : converter_truthy conv <;>
      simp [Connection.clear_node, Connection.get_node,
        Connection.set_node_to_port, Connection.set_type_converter, ht]
  · rw [hidx, hcid]
    exact set_then_erase_eq ctx.node.state rp hio i ctx.connection.conn_id
      entry hget hnotin

/-- Claim C8 witness: on the concrete context `ctxA`, committing the input
end and then disconnecting it returns the connection to "requires input",
unbinds the end, and restores node 1's Port State exactly. -/
theorem try_connect_disconnect_round_trip_witness :
    PortType.input = PortType.input ∧
    (Option.none : Option Nat) = Option.none ∧
    ({ in_entries := [[], [], []], out_entries := [[], [], []] } : NodeState) =
      nodeA.state :=
  try_connect_disconnect_round_trip ctxA PortType.input rfl (Or.inl rfl) 0
    (some DefaultTypeConverter) rfl [] rfl (by simp) true connBound
    nodeStateBound [Event.move_connections, Event.on_data_updated 2 0] rfl
    Option.none
    { connBound with
        in_node := Option.none
        in_port_index := INVALID
        required_port := PortType.input }
    { in_entries := [[], [], []], out_entries := [[], [], []] }
    [Event.propagate_empty_data, Event.grab_mouse] rfl
